import Mathlib

/-!
Shallow embedding of the Twlight_Script_web bookstore server
(`src/index.js` and the books router in `src/unnamed/part_000`).

JavaScript numbers that matter to the claims are modelled as `Option ℚ`
(`none` standing for NaN); strings as `String`; fields that may be
absent on a request body (`undefined`) as `Option String`.  Each route
handler becomes a pure function from its inputs (request body, session,
database contents, and a boolean standing for the outcome of the one
fallible external persistence call) to the new state plus the redirect
target and flash message it produces.
-/

set_option maxRecDepth 4000

namespace Twilight

/-- A JavaScript number: `none` models NaN, `some q` a (finite) value. -/
abbrev JSNum := Option ℚ

/-- JS `+` on numbers: NaN propagates. -/
def jsAdd (a b : JSNum) : JSNum :=
  match a, b with
  | some x, some y => some (x + y)
  | _, _ => none

/-- JS `*` on numbers: NaN propagates. -/
def jsMul (a b : JSNum) : JSNum :=
  match a, b with
  | some x, some y => some (x * y)
  | _, _ => none

/-- JS `String.prototype.trim` on the character list: strip whitespace
from both ends. -/
def jsTrim (l : List Char) : List Char :=
  ((l.dropWhile Char.isWhitespace).reverse.dropWhile Char.isWhitespace).reverse

/-- JS `String.prototype.split` with a one-character separator;
`splitOnChar sep "" = [""]` like in JS. -/
def splitOnChar (sep : Char) : List Char → List (List Char)
  | [] => [[]]
  | c :: cs =>
    match splitOnChar sep cs with
    | [] => [[]]
    | h :: t => if c = sep then [] :: h :: t else (c :: h) :: t

/-- Value of a nonempty all-digit character list, `none` otherwise. -/
def digitsVal (l : List Char) : Option Nat :=
  if l = [] then none
  else
    l.foldl
      (fun acc c =>
        match acc with
        | none => none
        | some n => if c.isDigit then some (n * 10 + (c.toNat - 48)) else none)
      (some 0)

/-- JS `Number(s)` on plain decimal numerals: trims whitespace, the empty
string is 0, an optional sign, digits with at most one decimal point.
Anything else (including exponent notation, which this program's forms
never produce) is NaN. -/
def jsNumberL (l : List Char) : JSNum :=
  let t := jsTrim l
  if t = [] then some 0
  else
    let (neg, u) : Bool × List Char :=
      match t with
      | '-' :: r => (true, r)
      | '+' :: r => (false, r)
      | r => (false, r)
    match splitOnChar '.' u with
    | [i] => (digitsVal i).map (fun n => if neg then -(n : ℚ) else (n : ℚ))
    | [i, f] =>
      let iv : Option ℚ := if i = [] then some 0 else (digitsVal i).map (fun n => (n : ℚ))
      let fv : Option ℚ :=
        if f = [] then (if i = [] then none else some 0)
        else (digitsVal f).map (fun n => (n : ℚ) / (10 : ℚ) ^ f.length)
      match iv, fv with
      | some a, some b => some (if neg then -(a + b) else a + b)
      | _, _ => none
    | _ => none

/-- JS `Number` on a string. -/
def jsNumber (s : String) : JSNum :=
  jsNumberL s.data

/-- JS truthiness of a possibly-absent string: `undefined` and `""` are
falsy, every other string truthy. -/
def truthyStr (v : Option String) : Bool :=
  match v with
  | some s => s ≠ ""
  | none => false

/-- JS `v || dflt` for a possibly-absent string `v`. -/
def jsOrStr (v : Option String) (dflt : String) : String :=
  match v with
  | some s => if s = "" then dflt else s
  | none => dflt

/-- `role` enum of the user schema (`src/index.js` lines 48-52). -/
inductive Role where
  | user
  | admin
deriving DecidableEq, Repr

/-- A stored account (user schema, `src/index.js` lines 48-52); the
credential hash is managed by passport-local-mongoose and omitted. -/
structure User where
  username : String
  email : String
  role : Role
deriving DecidableEq, Repr

/-- A stored image reference (book schema, `src/unnamed/part_000`). -/
structure Image where
  url : String
  filename : String
deriving DecidableEq, Repr

/-- A stored book (book schema, `src/unnamed/part_000` lines 7-17);
the schema has NO quantity field.  `id` models the document's `_id`. -/
structure Book where
  id : Nat
  title : String
  author : String
  description : String
  price : JSNum
  category : String
  image : Option Image
deriving DecidableEq, Repr

/-- An entry of the session cart, i.e. the JS object obtained by pushing
a book document onto `req.session.cart`.  The checkout code reads an
`item.quantity` property from such entries, so the field is carried here
as an `Option`; no writer in the program ever sets it. -/
structure CartEntry where
  id : Nat
  title : String
  author : String
  description : String
  price : JSNum
  category : String
  image : Option Image
  quantity : Option JSNum
deriving DecidableEq, Repr

/-- The snapshot of a book that `req.session.cart.push(book)` stores:
all book fields, and no quantity property. -/
def Book.toEntry (b : Book) : CartEntry :=
  { id := b.id, title := b.title, author := b.author
    description := b.description, price := b.price
    category := b.category, image := b.image, quantity := none }

/-- A line item of an order (`books` array of the order schema,
`src/index.js` lines 126-134). -/
structure OrderItem where
  bookId : Nat
  title : String
  author : String
  price : JSNum
  quantity : JSNum
deriving DecidableEq, Repr

/-- A persisted order (order schema, `src/index.js` lines 120-139);
`orderDate` is an external clock read and is omitted. -/
structure Order where
  customerName : String
  address : String
  city : String
  postalCode : String
  country : String
  books : List OrderItem
  paymentMethod : String
  totalAmount : JSNum
  status : String
deriving DecidableEq, Repr

/-- The per-session state: the lazily created cart and the logged-in
user (passport's session field). -/
structure Session where
  cart : Option (List CartEntry)
  user : Option String
deriving DecidableEq, Repr

/-- A one-shot flash message (`connect-flash`). -/
inductive Flash where
  | success (msg : String)
  | error (msg : String)
deriving DecidableEq, Repr

/-! ### Registration (`POST /register`, `src/index.js` lines 158-188) -/

/-- The relevant environment variables. -/
structure Env where
  adminEmails : Option String
  adminUsernames : Option String
deriving DecidableEq, Repr

/-- `s.split(",").map(s => s.trim()).filter(Boolean)`: the empty string
is the only falsy string. -/
def parseAdminList (s : String) : List String :=
  ((((splitOnChar ',' s.data).map jsTrim).filter (fun t => t ≠ [])).map
    (fun cs => String.mk cs))

/-- `(process.env.ADMIN_EMAILS || "").split(",").map(trim).filter(Boolean)`. -/
def adminEmailList (env : Env) : List String :=
  parseAdminList (env.adminEmails.getD "")

/-- `(process.env.ADMIN_USERNAMES || "").split(",").map(trim).filter(Boolean)`. -/
def adminUsernameList (env : Env) : List String :=
  parseAdminList (env.adminUsernames.getD "")

/-- Outcome of `POST /register`. -/
structure RegResult where
  users : List User
  sessionUser : Option String
  redirect : String
  flash : Flash
deriving DecidableEq, Repr

/-- `POST /register`: derive the role from the admin allow-lists, then
let `User.register` persist the account; the unique indexes on username
and email make it throw on a duplicate, which the catch block turns into
a flash error and a redirect back to the form (the store's error text is
abbreviated here). -/
def register (env : Env) (users : List User)
    (username email _password : String) : RegResult :=
  let role : Role :=
    if (adminEmailList env).contains email
        || (adminUsernameList env).contains username then .admin else .user
  let user : User := { username := username, email := email, role := role }
  if users.any (fun u => u.username == username || u.email == email) then
    { users := users, sessionUser := none, redirect := "/register"
      flash := .error "Registration Error: duplicate username or email" }
  else
    { users := users ++ [user], sessionUser := some username
      redirect := "/books", flash := .success "User Registered Successfully" }

/-! ### Logout (`GET /logout`, `src/index.js` lines 202-208) -/

/-- `GET /logout`: `req.logout` removes the login from the session and
reports no error even when no login is active, so the handler always
flashes success and redirects to the catalog. -/
def logoutRoute (sess : Session) : Session × Flash × String :=
  ({ sess with user := none }, .success "Logged Out Successfully", "/books")

/-! ### Book lookup and update (`PUT /books/:id`, `src/index.js` 302-337) -/

/-- `Book.findById` over the stored books (ids are unique in the store). -/
def findById (books : List Book) (id : Nat) : Option Book :=
  books.find? (fun b => b.id == id)

/-- The fields of the `PUT /books/:id` request body, each possibly absent,
plus the optional uploaded file (`req.file`). -/
structure UpdateBody where
  title : Option String
  author : Option String
  description : Option String
  price : Option String
  category : Option String
  newImage : Option Image
deriving DecidableEq, Repr

/-- The field mutations of `PUT /books/:id` on the found book:
`book.title = title || book.title` (likewise author, description),
`book.price = price ? Number(price) : book.price`,
`if (category) book.category = category`,
`if (req.file) book.image = {url, filename}` (the best-effort deletion of
the old image from the external image store has no effect on the record). -/
def updateBookFields (body : UpdateBody) (b : Book) : Book :=
  { b with
    title := jsOrStr body.title b.title
    author := jsOrStr body.author b.author
    description := jsOrStr body.description b.description
    price := if truthyStr body.price then jsNumber (body.price.getD "") else b.price
    category := if truthyStr body.category then body.category.getD "" else b.category
    image := match body.newImage with
      | some f => some f
      | none => b.image }

/-- Outcome of `PUT /books/:id` on the book store. -/
structure PutResult where
  books : List Book
  redirect : String
  flash : Flash
deriving DecidableEq, Repr

/-- `PUT /books/:id` after its gates: look the book up; if missing,
flash and redirect to the listing; otherwise mutate the found document's
fields and save it back. -/
def putBook (books : List Book) (id : Nat) (body : UpdateBody) : PutResult :=
  match findById books id with
  | none => { books := books, redirect := "/books", flash := .error "Book not found" }
  | some _ =>
    { books := books.map (fun b => if b.id == id then updateBookFields body b else b)
      redirect := "/books", flash := .success "Book Updated Successfully" }

/-! ### Cart (`POST /cart` and `GET /cart`, `src/index.js` 397-411) -/

/-- `POST /cart` after its login gate: look the book up; if missing,
redirect to the listing leaving the session alone; otherwise create the
cart if absent and push the book snapshot, then redirect to the cart. -/
def addToCart (books : List Book) (bookId : Nat) (sess : Session) :
    Session × String :=
  match findById books bookId with
  | none => (sess, "/books")
  | some book =>
    ({ sess with cart := some ((sess.cart.getD []) ++ [book.toEntry]) }, "/cart")

/-- `GET /cart`: `req.session.cart || []`. -/
def listCart (sess : Session) : List CartEntry :=
  sess.cart.getD []

/-- The store and one session together, for properties that interleave
catalog mutation with cart reads. -/
structure World where
  books : List Book
  sess : Session
deriving DecidableEq, Repr

/-- `POST /cart` acting on a world. -/
def worldAddToCart (w : World) (bookId : Nat) : World × String :=
  let (sess, r) := addToCart w.books bookId w.sess
  ({ w with sess := sess }, r)

/-- `PUT /books/:id` acting on a world: it touches only the book store,
never the session. -/
def worldPutBook (w : World) (id : Nat) (body : UpdateBody) : World :=
  { w with books := (putBook w.books id body).books }

/-! ### Checkout (`POST /complete-order`, `src/index.js` 429-470) -/

/-- The `POST /complete-order` request body. -/
structure OrderBody where
  name : String
  address : String
  city : String
  postalCode : String
  country : String
  paymentMethod : String
deriving DecidableEq, Repr

/-- `item.quantity || 1`: an absent, NaN or zero quantity falls back to 1. -/
def itemQtyOr1 (q : Option JSNum) : JSNum :=
  match q with
  | some (some v) => if v = 0 then some 1 else some v
  | _ => some 1

/-- `cart.reduce((sum, item) => sum + item.price * (item.quantity || 1), 0)`. -/
def orderTotal (cart : List CartEntry) : JSNum :=
  cart.foldl (fun s it => jsAdd s (jsMul it.price (itemQtyOr1 it.quantity))) (some 0)

/-- The order document that `POST /complete-order` builds from the body
and the cart, including the branch
`paymentMethod === "cod" ? "Cash on Delivery" : "Cash on Delivery"`. -/
def buildOrder (body : OrderBody) (cart : List CartEntry) : Order :=
  { customerName := body.name
    address := body.address
    city := body.city
    postalCode := body.postalCode
    country := body.country
    books := cart.map (fun it =>
      { bookId := it.id, title := it.title, author := it.author
        price := it.price, quantity := itemQtyOr1 it.quantity })
    paymentMethod :=
      if body.paymentMethod = "cod" then "Cash on Delivery" else "Cash on Delivery"
    totalAmount := orderTotal cart
    status := "Pending" }

/-- Outcome of `POST /complete-order`. -/
structure CompleteResult where
  sess : Session
  orders : List Order
  redirect : String
  flash : Flash
deriving DecidableEq, Repr

/-- `POST /complete-order`: an empty cart redirects back to the cart with
an error and creates nothing; otherwise the order is built and saved —
`saveOk` is the outcome of the awaited `newOrder.save()`.  Only after a
successful save is the cart reset to `[]`; a failed save lands in the
catch block, which leaves the session untouched and redirects to
checkout with a generic error. -/
def completeOrder (saveOk : Bool) (body : OrderBody)
    (sess : Session) (orders : List Order) : CompleteResult :=
  let cart := sess.cart.getD []
  if cart.length = 0 then
    { sess := sess, orders := orders, redirect := "/cart"
      flash := .error "Cart is empty. Please add items before checkout." }
  else
    let newOrder := buildOrder body cart
    if saveOk then
      { sess := { sess with cart := some [] }, orders := orders ++ [newOrder]
        redirect := "/books", flash := .success "Order placed successfully!" }
    else
      { sess := sess, orders := orders, redirect := "/checkout"
        flash := .error "Something went wrong while placing your order." }

/-! ### Middleware chains (`src/index.js` 143-153, 240, 273, 302) -/

/-- The middlewares that appear on the book-mutation routes. -/
inductive MW where
  | upload
  | loggedIn
  | admin
  | handler
deriving DecidableEq, Repr

/-- The authorization-relevant shape of an inbound request: whether a
login session is active, whether its user has the admin role, and the
multipart file, if any. -/
structure Req where
  authenticated : Bool
  adminRole : Bool
  file : Option String
deriving DecidableEq, Repr

/-- State threaded through a middleware chain: files already written to
the external image store, whether the chain has halted with a redirect,
and whether the route's own handler was reached. -/
structure MWState where
  stored : List String
  halted : Bool
  redirect : Option String
  reachedHandler : Bool
deriving DecidableEq, Repr

/-- One middleware step.  `upload.single("image")` stores the multipart
file (if any) and calls `next()`; `isLoggedIn` redirects to `/login`
unless authenticated; `isAdmin` redirects to `/books` unless
authenticated with role admin; `handler` marks the route body. -/
def runMW (mw : MW) (req : Req) (st : MWState) : MWState :=
  match mw with
  | .upload =>
    match req.file with
    | some f => { st with stored := st.stored ++ [f] }
    | none => st
  | .loggedIn =>
    if req.authenticated then st
    else { st with halted := true, redirect := some "/login" }
  | .admin =>
    if req.authenticated && req.adminRole then st
    else { st with halted := true, redirect := some "/books" }
  | .handler => { st with reachedHandler := true }

/-- Run a chain left to right; a halted chain calls no further middleware. -/
def runChain (chain : List MW) (req : Req) : MWState :=
  chain.foldl (fun st mw => if st.halted then st else runMW mw req st)
    { stored := [], halted := false, redirect := none, reachedHandler := false }

/-- `app.post("/books", upload.single("image"), isLoggedIn, isAdmin, ...)`. -/
def postBooksChain : List MW := [.upload, .loggedIn, .admin, .handler]

/-- `app.post("/new", upload.single("image"), isLoggedIn, isAdmin, ...)`. -/
def postNewChain : List MW := [.upload, .loggedIn, .admin, .handler]

/-- `app.put("/books/:id", isLoggedIn, isAdmin, upload.single("image"), ...)`. -/
def putBookChain : List MW := [.loggedIn, .admin, .upload, .handler]

/-! ### Sample values used to exercise the theorems on concrete inputs -/

/-- A cart entry as produced by snapshotting a stored book. -/
def sampleEntry : CartEntry :=
  { id := 1, title := "Dune", author := "Herbert", description := "d"
    price := some 10, category := "SciFi", image := none, quantity := none }

/-- A concrete stored book. -/
def sampleBook : Book :=
  { id := 7, title := "Dune", author := "Herbert", description := "d"
    price := some 10, category := "SciFi", image := none }

/-- A concrete checkout body. -/
def sampleBody : OrderBody :=
  { name := "N", address := "A", city := "C", postalCode := "P"
    country := "K", paymentMethod := "cod" }

/-- A concrete session holding one cart entry. -/
def sampleSession : Session :=
  { cart := some [sampleEntry], user := some "u" }

/-- A concrete book-update body setting the price field to "12.5". -/
def sampleUpdate : UpdateBody :=
  { title := some "Dune II", author := none, description := none
    price := some "12.5", category := none, newImage := none }

/-- A cart entry with a given rational price and quantity, as used to
express the checkout total as an exact rational sum. -/
def ratEntry (p q : ℚ) : CartEntry :=
  { id := 0, title := "", author := "", description := ""
    price := some p, category := "", image := none
    quantity := some (some q) }

end Twilight

namespace Twilight

/-! ### Helper lemmas -/

/-- Multiplying a JS number by 1 is the identity (NaN included). -/
theorem jsMul_one (p : JSNum) : jsMul p (some 1) = p := by
  cases p <;> simp [jsMul]

/-- A falsy string field leaves the `||` default. -/
theorem jsOrStr_of_falsy (v : Option String) (d : String)
    (h : truthyStr v = false) : jsOrStr v d = d := by
  cases v with
  | none => rfl
  | some s =>
    simp only [truthyStr, ne_eq, decide_not, Bool.not_eq_false', decide_eq_true_eq] at h
    simp [jsOrStr, h]

/-- `Number("12.5")` is the rational 25/2. -/
theorem jsNumber_12_5 : jsNumber "12.5" = some (25 / 2 : ℚ) := by
  have h : jsNumber "12.5" = some ((12 : ℚ) + 5 / 10 ^ 1) := by
    show jsNumberL ['1', '2', '.', '5'] = _
    simp [jsNumberL, jsTrim, splitOnChar, digitsVal]
  rw [h]
  norm_num

/-- Generalized-accumulator form of the checkout reduce over entries with
rational price and nonzero rational quantity. -/
theorem foldl_jsAdd_ratEntries (l : List (ℚ × ℚ)) (hq : ∀ x ∈ l, x.2 ≠ 0)
    (a : ℚ) :
    (l.map (fun p => ratEntry p.1 p.2)).foldl
        (fun s it => jsAdd s (jsMul it.price (itemQtyOr1 it.quantity)))
        (some a) =
      some (a + (l.map (fun p => p.1 * p.2)).sum) := by
  induction l generalizing a with
  | nil => simp
  | cons x xs ih =>
    have hx : x.2 ≠ 0 := hq x (by simp)
    have hxs : ∀ y ∈ xs, y.2 ≠ 0 := fun y hy => hq y (by simp [hy])
    have hstep :
        jsAdd (some a)
            (jsMul (ratEntry x.1 x.2).price (itemQtyOr1 (ratEntry x.1 x.2).quantity)) =
          some (a + x.1 * x.2) := by
      simp [ratEntry, itemQtyOr1, jsMul, jsAdd, hx]
    rw [List.map_cons, List.foldl_cons, hstep, ih hxs, List.map_cons,
      List.sum_cons]
    congr 1
    ring

/-- The checkout reduce over book snapshots is a fold of the raw prices:
each snapshot has no quantity field, so its factor is 1. -/
theorem orderTotal_snapshots (bs : List Book) :
    orderTotal (bs.map Book.toEntry) = (bs.map Book.price).foldl jsAdd (some 0) := by
  have aux : ∀ (bs : List Book) (a : JSNum),
      (bs.map Book.toEntry).foldl
          (fun s it => jsAdd s (jsMul it.price (itemQtyOr1 it.quantity))) a =
        (bs.map Book.price).foldl jsAdd a := by
    intro bs
    induction bs with
    | nil => intro a; rfl
    | cons b bs ih =>
      intro a
      simp only [List.map_cons, List.foldl_cons, Book.toEntry, itemQtyOr1,
        jsMul_one]
      exact ih _
  simpa [orderTotal] using aux bs (some 0)

/-! ### Claim theorems -/

/-- C3: checkout with an empty session cart creates no order, leaves the
session (hence the empty cart) unchanged, and signals the recoverable
empty-cart condition by flashing an error and redirecting back to the
cart page — whether or not persistence would have succeeded. -/
theorem checkout_empty_cart_noop (saveOk : Bool) (body : OrderBody)
    (sess : Session) (orders : List Order) (h : sess.cart.getD [] = []) :
    completeOrder saveOk body sess orders =
      { sess := sess, orders := orders, redirect := "/cart"
        flash := .error "Cart is empty. Please add items before checkout." } := by
  simp [completeOrder, h]

/-- Witness for C3 on a session without a cart. -/
theorem checkout_empty_cart_noop_witness :
    completeOrder true sampleBody { cart := none, user := none } [] =
      { sess := { cart := none, user := none }, orders := [], redirect := "/cart"
        flash := .error "Cart is empty. Please add items before checkout."} :=
  checkout_empty_cart_noop true sampleBody { cart := none, user := none } []
    (by decide)

/-- C2: with a non-empty cart, a failed persistence leaves the session
(and so the cart) unchanged and routes back to checkout with the generic
failure flash, while a successful persistence empties the cart and
appends exactly the built order. -/
theorem checkout_clears_cart_only_after_save (body : OrderBody)
    (sess : Session) (orders : List Order) (h : sess.cart.getD [] ≠ []) :
    (completeOrder false body sess orders).sess = sess ∧
    (completeOrder false body sess orders).orders = orders ∧
    (completeOrder false body sess orders).redirect = "/checkout" ∧
    (completeOrder false body sess orders).flash =
      .error "Something went wrong while placing your order." ∧
    (completeOrder true body sess orders).sess.cart = some [] ∧
    (completeOrder true body sess orders).orders =
      orders ++ [buildOrder body (sess.cart.getD [])] := by
  have hl : ¬(sess.cart.getD []).length = 0 := by
    simpa [List.length_eq_zero] using h
  simp [completeOrder, hl]

/-- Witness for C2 on a one-entry cart. -/
theorem checkout_clears_cart_only_after_save_witness :
    (completeOrder false sampleBody sampleSession []).sess = sampleSession ∧
    (completeOrder false sampleBody sampleSession []).orders = [] ∧
    (completeOrder false sampleBody sampleSession []).redirect = "/checkout" ∧
    (completeOrder false sampleBody sampleSession []).flash =
      .error "Something went wrong while placing your order." ∧
    (completeOrder true sampleBody sampleSession []).sess.cart = some [] ∧
    (completeOrder true sampleBody sampleSession []).orders =
      [] ++ [buildOrder sampleBody (sampleSession.cart.getD [])] :=
  checkout_clears_cart_only_after_save sampleBody sampleSession []
    (by simp [sampleSession])

/-- C7: logout always removes the login from the session, flashes
success and redirects to the catalog — also when no login was active. -/
theorem logout_always_reports_success (sess : Session) :
    logoutRoute sess =
      ({ sess with user := none }, .success "Logged Out Successfully", "/books") ∧
    logoutRoute { sess with user := none } =
      ({ sess with user := none }, .success "Logged Out Successfully", "/books") :=
  ⟨rfl, rfl⟩

/-- C8: whatever the submitted `paymentMethod` value, the built (and, on
success, persisted) order carries the fixed label "Cash on Delivery". -/
theorem checkout_payment_label (body : OrderBody) (sess : Session)
    (orders : List Order) (h : sess.cart.getD [] ≠ []) :
    (buildOrder body (sess.cart.getD [])).paymentMethod = "Cash on Delivery" ∧
    (completeOrder true body sess orders).orders =
      orders ++ [buildOrder body (sess.cart.getD [])] := by
  have hl : ¬(sess.cart.getD []).length = 0 := by
    simpa [List.length_eq_zero] using h
  constructor
  · by_cases hb : body.paymentMethod = "cod" <;> simp [buildOrder, hb]
  · simp [completeOrder, hl]

/-- Witness for C8 with a non-"cod" payment input. -/
theorem checkout_payment_label_witness :
    (buildOrder { sampleBody with paymentMethod := "paypal" }
        (sampleSession.cart.getD [])).paymentMethod = "Cash on Delivery" ∧
    (completeOrder true { sampleBody with paymentMethod := "paypal" }
        sampleSession []).orders =
      [] ++ [buildOrder { sampleBody with paymentMethod := "paypal" }
        (sampleSession.cart.getD [])] :=
  checkout_payment_label { sampleBody with paymentMethod := "paypal" }
    sampleSession [] (by simp [sampleSession])

/-- C10: on POST /books and POST /new the multipart middleware runs
first, so the uploaded file is stored for every multipart request, while
an unauthenticated or non-admin caller never reaches the handler; on
PUT /books/:id the gates run first, so such a caller's file is never
stored. -/
theorem upload_runs_before_auth_gates (req : Req) (f : String)
    (hf : req.file = some f) :
    (runChain postBooksChain req).stored = [f] ∧
    (runChain postNewChain req).stored = [f] ∧
    (¬(req.authenticated = true ∧ req.adminRole = true) →
      (runChain postBooksChain req).reachedHandler = false ∧
      (runChain postNewChain req).reachedHandler = false ∧
      (runChain putBookChain req).stored = [] ∧
      (runChain putBookChain req).reachedHandler = false) := by
  rcases req with ⟨a, r, fl⟩
  cases hf
  cases a <;> cases r <;>
    simp [runChain, runMW, postBooksChain, postNewChain, putBookChain]

/-- Witness for C10: an unauthenticated multipart request. -/
theorem upload_runs_before_auth_gates_witness :
    (runChain postBooksChain
        { authenticated := false, adminRole := false, file := some "img" }).stored
      = ["img"] ∧
    (runChain putBookChain
        { authenticated := false, adminRole := false, file := some "img" }).stored
      = [] ∧
    (runChain postBooksChain
        { authenticated := false, adminRole := false, file := some "img"
        }).reachedHandler = false := by
  have h := upload_runs_before_auth_gates
    { authenticated := false, adminRole := false, file := some "img" } "img" rfl
  exact ⟨h.1, (h.2.2 (by simp)).2.2.1, (h.2.2 (by simp)).1⟩

/-- C1: with a non-empty cart, the persisted order stores exactly the
total computed from the cart at submission: the fold of
price × (quantity-or-1) over the entries.  On entries with rational
price and nonzero rational quantity this fold is the exact sum
Σ price × quantity; an entry without a quantity field contributes its
plain price; the spec's example cart evaluates to 20. -/
theorem checkout_total_is_cart_sum (body : OrderBody) (sess : Session)
    (orders : List Order) (h : sess.cart.getD [] ≠ []) :
    (∃ o : Order,
      (completeOrder true body sess orders).orders = orders ++ [o] ∧
      o.totalAmount = orderTotal (sess.cart.getD [])) ∧
    (∀ l : List (ℚ × ℚ), (∀ x ∈ l, x.2 ≠ 0) →
      orderTotal (l.map (fun p => ratEntry p.1 p.2)) =
        some ((l.map (fun p => p.1 * p.2)).sum)) ∧
    (∀ e : CartEntry, e.quantity = none →
      jsMul e.price (itemQtyOr1 e.quantity) = e.price) ∧
    orderTotal [ratEntry 10 1, ratEntry 5 2] = some 20 := by
  have hl : ¬(sess.cart.getD []).length = 0 := by
    simpa [List.length_eq_zero] using h
  refine ⟨⟨buildOrder body (sess.cart.getD []), ?_, rfl⟩, ?_, ?_, ?_⟩
  · simp [completeOrder, hl]
  · intro l hq
    simpa [orderTotal] using foldl_jsAdd_ratEntries l hq 0
  · intro e he
    rw [he]
    exact jsMul_one e.price
  · have h2 := foldl_jsAdd_ratEntries [((10 : ℚ), (1 : ℚ)), ((5 : ℚ), (2 : ℚ))]
      (by norm_num) 0
    simp only [List.map_cons, List.map_nil, List.sum_cons, List.sum_nil] at h2
    calc orderTotal [ratEntry 10 1, ratEntry 5 2]
        = some ((0 : ℚ) + (10 * 1 + (5 * 2 + 0))) := by
          simpa [orderTotal] using h2
      _ = some 20 := by norm_num

/-- Witness for C1 on the one-entry sample cart. -/
theorem checkout_total_is_cart_sum_witness :
    (∃ o : Order,
      (completeOrder true sampleBody sampleSession []).orders = [] ++ [o] ∧
      o.totalAmount = orderTotal (sampleSession.cart.getD [])) ∧
    orderTotal [ratEntry 10 1, ratEntry 5 2] = some 20 := by
  have h := checkout_total_is_cart_sum sampleBody sampleSession []
    (by simp [sampleSession])
  exact ⟨h.1, h.2.2.2⟩

/-- C4: registering a fresh username/email creates exactly one account,
logs it in, and its role is admin precisely when the email is in the
configured admin email allow-list or the username is in the configured
admin username allow-list, and user otherwise. -/
theorem register_role_from_allow_lists (env : Env) (users : List User)
    (username email pw : String)
    (h : ∀ u ∈ users, u.username ≠ username ∧ u.email ≠ email) :
    ∃ u : User,
      (register env users username email pw).users = users ++ [u] ∧
      (register env users username email pw).sessionUser = some username ∧
      u.username = username ∧ u.email = email ∧
      (u.role = .admin ↔
        email ∈ adminEmailList env ∨ username ∈ adminUsernameList env) ∧
      (u.role = .user ↔
        ¬(email ∈ adminEmailList env ∨ username ∈ adminUsernameList env)) := by
  have hany : (users.any fun u => u.username == username || u.email == email)
      = false := by
    rw [List.any_eq_false]
    intro u hu
    simp [(h u hu).1, (h u hu).2]
  have hcond : ((adminEmailList env).contains email
      || (adminUsernameList env).contains username) = true ↔
      (email ∈ adminEmailList env ∨ username ∈ adminUsernameList env) := by
    simp [List.contains, List.elem_iff]
  by_cases hc : email ∈ adminEmailList env ∨ username ∈ adminUsernameList env
  · have hb : ((adminEmailList env).contains email
        || (adminUsernameList env).contains username) = true := hcond.mpr hc
    refine ⟨⟨username, email, .admin⟩, ?_, ?_, rfl, rfl, ?_, ?_⟩
    · simp only [register]
      rw [hany, hb]
      simp
    · simp [register, hany]
    · exact iff_of_true rfl hc
    · exact iff_of_false (by simp) (not_not_intro hc)
  · have hb : ((adminEmailList env).contains email
        || (adminUsernameList env).contains username) = false := by
      cases hbb : ((adminEmailList env).contains email
          || (adminUsernameList env).contains username) with
      | true => exact absurd (hcond.mp hbb) hc
      | false => rfl
    refine ⟨⟨username, email, .user⟩, ?_, ?_, rfl, rfl, ?_, ?_⟩
    · simp only [register]
      rw [hany, hb]
      simp
    · simp [register, hany]
    · exact iff_of_false (by simp) hc
    · exact iff_of_true rfl hc

/-- Witness for C4: a fresh registration whose email is allow-listed. -/
theorem register_role_from_allow_lists_witness :
    ∃ u : User,
      (register ⟨some "boss@x.com", none⟩ [] "boss" "boss@x.com" "pw").users
        = [] ++ [u] ∧
      (register ⟨some "boss@x.com", none⟩ [] "boss" "boss@x.com" "pw").sessionUser
        = some "boss" ∧
      u.username = "boss" ∧ u.email = "boss@x.com" ∧
      (u.role = .admin ↔
        "boss@x.com" ∈ adminEmailList ⟨some "boss@x.com", none⟩ ∨
          "boss" ∈ adminUsernameList ⟨some "boss@x.com", none⟩) ∧
      (u.role = .user ↔
        ¬("boss@x.com" ∈ adminEmailList ⟨some "boss@x.com", none⟩ ∨
          "boss" ∈ adminUsernameList ⟨some "boss@x.com", none⟩)) :=
  register_role_from_allow_lists ⟨some "boss@x.com", none⟩ [] "boss"
    "boss@x.com" "pw" (by simp)

/-- C5: book update applies only present non-empty fields: an empty or
absent field (title, author, description, price, category, image) keeps
the stored value, an empty-string price in particular keeps the stored
price, and price "12.5" becomes the number 12.5; the route rewrites only
the addressed book. -/
theorem update_applies_only_present_fields (books : List Book) (id : Nat) (body : UpdateBody)
    (b : Book) (h : findById books id = some b) :
    ((body.price = some "" → (updateBookFields body b).price = b.price) ∧
     (body.price = some "12.5" →
       (updateBookFields body b).price = some (25 / 2 : ℚ)) ∧
     (truthyStr body.title = false →
       (updateBookFields body b).title = b.title) ∧
     (truthyStr body.author = false →
       (updateBookFields body b).author = b.author) ∧
     (truthyStr body.description = false →
       (updateBookFields body b).description = b.description) ∧
     (truthyStr body.price = false →
       (updateBookFields body b).price = b.price) ∧
     (truthyStr body.category = false →
       (updateBookFields body b).category = b.category) ∧
     (body.newImage = none → (updateBookFields body b).image = b.image)) ∧
    (putBook books id body).books =
      books.map (fun x => if x.id == id then updateBookFields body x else x) := by
  refine ⟨⟨?_, ?_, ?_, ?_, ?_, ?_, ?_, ?_⟩, ?_⟩
  · intro hp
    have ht : truthyStr (some "") = false := by decide
    simp [updateBookFields, hp, ht]
  · intro hp
    have ht : truthyStr (some "12.5") = true := by decide
    simp [updateBookFields, hp, ht, jsNumber_12_5]
  · intro ht; simp [updateBookFields, jsOrStr_of_falsy _ _ ht]
  · intro ht; simp [updateBookFields, jsOrStr_of_falsy _ _ ht]
  · intro ht; simp [updateBookFields, jsOrStr_of_falsy _ _ ht]
  · intro hp; simp [updateBookFields, hp]
  · intro hcat; simp [updateBookFields, hcat]
  · intro hi; simp [updateBookFields, hi]
  · simp [putBook, h]

/-- Witness for C5: updating the sample book with price "12.5". -/
theorem update_applies_only_present_fields_witness :
    (updateBookFields sampleUpdate sampleBook).price = some (25 / 2 : ℚ) :=
  (update_applies_only_present_fields [sampleBook] 7 sampleUpdate sampleBook rfl).1.2.1 rfl

/-- C6: adding an unknown book id leaves the session untouched and
redirects to the listing; adding a stored book appends its full
snapshot as the last cart entry (creating the cart when absent), a
second add appends a second copy, and a later update of the stored book
leaves the snapshot already in the cart unchanged. -/
theorem addToCart_snapshot (books : List Book) (bid : Nat) (sess : Session) :
    (findById books bid = none → addToCart books bid sess = (sess, "/books")) ∧
    ∀ b : Book, findById books bid = some b →
      addToCart books bid sess =
        ({ sess with cart := some (listCart sess ++ [b.toEntry]) }, "/cart") ∧
      listCart (addToCart books bid (addToCart books bid sess).1).1 =
        listCart sess ++ [b.toEntry, b.toEntry] ∧
      ∀ ubody : UpdateBody,
        listCart (worldPutBook (worldAddToCart ⟨books, sess⟩ bid).1 bid ubody).sess =
          listCart sess ++ [b.toEntry] := by
  constructor
  · intro h; simp [addToCart, h]
  · intro b hb
    refine ⟨?_, ?_, ?_⟩
    · simp [addToCart, hb, listCart]
    · simp [addToCart, hb, listCart]
    · intro ubody
      simp [worldPutBook, worldAddToCart, addToCart, hb, putBook, listCart]

/-- Witness for C6: adding the sample book to a fresh session, then
updating the stored book. -/
theorem addToCart_snapshot_witness :
    addToCart [sampleBook] 7 { cart := none, user := none } =
      ({ cart := some (listCart { cart := none, user := none } ++
          [sampleBook.toEntry]), user := none }, "/cart") ∧
    listCart (worldPutBook
        (worldAddToCart ⟨[sampleBook], { cart := none, user := none }⟩ 7).1
        7 sampleUpdate).sess =
      listCart { cart := none, user := none } ++ [sampleBook.toEntry] := by
  have h := (addToCart_snapshot [sampleBook] 7 { cart := none, user := none }).2
    sampleBook rfl
  exact ⟨h.1, h.2.2 sampleUpdate⟩

/-- C9: cart entries only ever come from book snapshots, which carry no
quantity field; consequently every line item of an order created from
such a cart has quantity 1 and the stored total degenerates to the plain
fold of the entries' prices. -/
theorem snapshot_carts_give_quantity_one :
    (∀ (books : List Book) (bid : Nat) (sess : Session),
      ∀ it ∈ listCart (addToCart books bid sess).1,
        it ∈ listCart sess ∨ it.quantity = none) ∧
    (∀ (bs : List Book) (body : OrderBody) (sess : Session) (orders : List Order),
      sess.cart = some (bs.map Book.toEntry) → bs ≠ [] →
      ∃ o : Order,
        (completeOrder true body sess orders).orders = orders ++ [o] ∧
        (∀ li ∈ o.books, li.quantity = some 1) ∧
        o.totalAmount = (bs.map Book.price).foldl jsAdd (some 0)) := by
  constructor
  · intro books bid sess it hit
    cases hfb : findById books bid with
    | none =>
      simp only [addToCart, hfb] at hit
      exact Or.inl hit
    | some b =>
      simp [addToCart, hfb, listCart] at hit
      rcases hit with hit | hit
      · exact Or.inl hit
      · right; rw [hit]; rfl
  · intro bs body sess orders hc hbs
    have hl : sess.cart.getD [] = bs.map Book.toEntry := by rw [hc]; rfl
    have hne : ¬(sess.cart.getD []).length = 0 := by
      rw [hl]
      simpa [List.length_eq_zero, List.map_eq_nil_iff] using hbs
    refine ⟨buildOrder body (sess.cart.getD []), ?_, ?_, ?_⟩
    · simp [completeOrder, hne]
    · intro li hli
      simp only [buildOrder, hl, List.map_map, List.mem_map] at hli
      obtain ⟨b', _, hb'⟩ := hli
      rw [← hb']
      rfl
    · simp [buildOrder, hl, orderTotal_snapshots]

/-- Witness for C9: checkout of a cart holding one book snapshot. -/
theorem snapshot_carts_give_quantity_one_witness :
    ∃ o : Order,
      (completeOrder true sampleBody
          { cart := some ([sampleBook].map Book.toEntry), user := none }
          []).orders = [] ++ [o] ∧
      (∀ li ∈ o.books, li.quantity = some 1) ∧
      o.totalAmount = ([sampleBook].map Book.price).foldl jsAdd (some 0) :=
  snapshot_carts_give_quantity_one.2 [sampleBook] sampleBody
    { cart := some ([sampleBook].map Book.toEntry), user := none } [] rfl
    (by decide)

end Twilight
